import Mathlib

/-!
# The request-admission pipeline of `server.js`

A shallow embedding of the Express application in `src/server.js`:

* the global middleware chain: `express.json()`, then `app.use(limiter)`, then
  the `blockedIPs` check, with the error-handling middleware behind it,
* the route middleware `validateRequest`,
* the handlers of `POST /check-key`, `POST /validate-token` and `GET /get-key`,
* the helpers `generateKey`, `generateToken` and `generateHtmlResponse`.

Everything the handlers read from outside the process is an explicit input
(`Env`): the clock, the reply of the upstream key service, the contents of the
template file.  The process-wide mutable state (`blockedIPs` and the store of
the rate limiter) is threaded explicitly (`ServerState`).  `app` is the whole
application, from `express.json()` on; `handle` is the chain behind
`express.json()`, for a request whose body it has parsed (`Request`); the body
fields are strings, as in the HTTP interface.  `console.error` output is not
modelled.

Two npm libraries decide part of the behaviour and are not part of the
repository: `express-rate-limit` and `jsonwebtoken`.  The pipeline is
parametrised by the rate-limit middleware (`RateLimit`), and both libraries get
a model that follows the specification (`rateLimit`, `jwtSign`, `jwtVerify`).
-/

namespace Gateway

/-! ## JavaScript strings -/

/-- JS truthiness test `!s` for a value that is `undefined` or a string. -/
def falsy : Option String → Bool
  | none => true
  | some s => decide (s = "")

/-- First occurrence of `pat` in `s`: the text before it and the text after it. -/
def findFirst (pat : List Char) : List Char → Option (List Char × List Char)
  | [] => if pat.isPrefixOf [] then some ([], []) else none
  | c :: r =>
    if pat.isPrefixOf (c :: r) then some ([], (c :: r).drop pat.length)
    else match findFirst pat r with
      | some (before, after) => some (c :: before, after)
      | none => none

/-- `s.includes(pat)`. -/
def includes (s pat : String) : Bool :=
  (findFirst pat.data s.data).isSome

/-- The replacement-text expansion of `String.prototype.replace` for a string
pattern (no capture groups): `$$` is a dollar sign, `$&` the matched text,
`$` followed by a backquote the text before the match, `$` followed by an
apostrophe the text after it; every other character stands for itself. -/
def getSubstitution (matched before after : List Char) : List Char → List Char
  | [] => []
  | [c] => [c]
  | c :: d :: r =>
    if c = '$' then
      if d = '$' then '$' :: getSubstitution matched before after r
      else if d = '&' then matched ++ getSubstitution matched before after r
      else if d = Char.ofNat 96 then before ++ getSubstitution matched before after r
      else if d = Char.ofNat 39 then after ++ getSubstitution matched before after r
      else c :: getSubstitution matched before after (d :: r)
    else c :: getSubstitution matched before after (d :: r)

/-- `s.replace(pat, rep)` for a string pattern: only the first occurrence is replaced. -/
def replace (s pat rep : List Char) : List Char :=
  match findFirst pat s with
  | none => s
  | some (before, after) => before ++ getSubstitution pat before after rep ++ after

/-- The placeholder for the credential in `keysite.html`. -/
def keyPlaceholder : String := "$\x7bkey\x7d"

/-- The placeholder for the issuance timestamp in `keysite.html`. -/
def timestampPlaceholder : String := "$\x7btimestamp\x7d"

/-- `generateHtmlResponse(key, timestamp)`, with the contents of
`public/keysite.html` as the argument `html`. -/
def generateHtmlResponse (html key timestamp : String) : String :=
  String.mk (replace (replace html.data keyPlaceholder.data key.data)
    timestampPlaceholder.data timestamp.data)

/-! ## Requests, responses, environment -/

/-- The route an HTTP method and path resolve to. -/
inductive Route
  | checkKey
  | validateToken
  | getKey
  | unmatched
  deriving DecidableEq, Repr

/-- Modelled from the spec: the tokens of the `jsonwebtoken` library, which is
not part of the repository.  A client can submit any string in the `token`
field; a string is either a token signed with some secret, carrying an issuance
time and an expiry (in seconds), or any other text. -/
inductive Token
  | raw (text : String)
  | signed (secret : String) (iat exp : Nat)
  deriving DecidableEq, Repr

/-- JS truthiness test `!token`: the field is absent or the empty string. -/
def tokenFalsy : Option Token → Bool
  | none => true
  | some (Token.raw text) => decide (text = "")
  | some (Token.signed _ _ _) => false

structure Request where
  ip : String
  route : Route
  referer : Option String
  userAgent : Option String
  key : Option String
  token : Option Token
  deriving DecidableEq, Repr

/-- What the upstream key service does when it is asked for a key. -/
inductive Upstream
  | failed (message : String)
  | replied (key : Option String)
  deriving DecidableEq, Repr

/-- Everything a request reads from outside the process while it is handled. -/
structure Env where
  /-- The clock in milliseconds, as read by the rate limiter. -/
  now : Nat
  /-- The clock in seconds, as read by the token library. -/
  clock : Nat
  /-- The text of `new Date().toISOString()`. -/
  timestamp : String
  /-- The outcome of the GET to the key service, were it made. -/
  upstream : Upstream
  /-- The contents of `public/keysite.html`, `none` when it cannot be read. -/
  keysite : Option String
  deriving DecidableEq, Repr

inductive Body
  | error (message : String)
  | verdict (valid : Bool) (token : Option Token)
  | file (name : String)
  | html (page : String)
  deriving DecidableEq, Repr

structure Response where
  status : Nat
  body : Body
  deriving DecidableEq, Repr

/-- The stages of the middleware chain a request can run through. -/
inductive Stage
  | json
  | limiter
  | blockedIPs
  | validateRequest
  | handler
  deriving DecidableEq, Repr

/-! ## The rate limiter -/

/-- The rate-limit middleware as the pipeline sees it: given the clock, the
requester and its store, it admits the request or not and updates its store. -/
structure RateLimit (σ : Type) where
  admission : Nat → String → σ → Bool × σ

/-- Modelled from the spec: the record the rate limiter keeps per requester,
a count and the start of the window in milliseconds. -/
structure RateWindow where
  count : Nat
  windowStart : Nat
  deriving DecidableEq, Repr

/-- Modelled from the spec: the store of the rate limiter, keyed by address. -/
abbrev RateStore := String → Option RateWindow

/-- Modelled from the spec: writing the record of one requester. -/
def RateStore.set (store : RateStore) (ip : String) (w : RateWindow) : RateStore :=
  fun k => if k = ip then some w else store k

/-- Modelled from the spec: the middleware built by `rateLimit` of the
`express-rate-limit` library, which is not part of the repository.  If the
requester has no window or its window has elapsed, the count is reset to 1 and
the window starts now, and the request is admitted; otherwise the count is
incremented and the request is admitted unless the count exceeds `max`. -/
def rateLimit (windowMs max : Nat) : RateLimit RateStore where
  admission now ip store :=
    match store ip with
    | none => (true, store.set ip ⟨1, now⟩)
    | some w =>
      if now - w.windowStart ≥ windowMs then (true, store.set ip ⟨1, now⟩)
      else (decide (¬ (w.count + 1 > max)), store.set ip ⟨w.count + 1, w.windowStart⟩)

def windowMs : Nat := 5 * 60 * 1000

def max : Nat := 100

/-- The middleware `limiter` of the source. -/
def limiter : RateLimit RateStore := rateLimit windowMs max

/-- The response of the limiter to a request it rejects: the `message` of the
source, sent with status 429, the default of `express-rate-limit`. -/
def rateLimited : Response :=
  ⟨429, Body.error "Rate limit exceeded. Please try again later."⟩

/-! ## The ban list -/

/-- `blockedIPs.add(ip)` on a JS `Set`, kept in insertion order. -/
def setAdd (set : List String) (ip : String) : List String :=
  if ip ∈ set then set else set ++ [ip]

def accessDenied : Response := ⟨403, Body.error "Access Denied"⟩

/-! ## Helpers of the source -/

/-- `generateKey()`: the key of the upstream reply, or the error thrown. -/
def generateKey : Upstream → Except String String
  | Upstream.failed message => Except.error message
  | Upstream.replied none => Except.error "Key not found"
  | Upstream.replied (some key) =>
    if key = "" then Except.error "Key not found" else Except.ok key

/-- Modelled from the spec: `jwt.sign` of the `jsonwebtoken` library, called
with an empty payload and `expiresIn` set to 30 seconds: the token carries the
issuance time and an expiry 30 seconds later and is signed with the secret. -/
def jwtSign (secret : String) (clock : Nat) : Token :=
  Token.signed secret clock (clock + 30)

/-- Modelled from the spec: `jwt.verify(token, secret, callback)` of the
`jsonwebtoken` library; `true` when the callback gets no error.  A missing
secret, a malformed token, a token signed with another secret and an expired
token all give an error. -/
def jwtVerify (token : Token) (secret : Option String) (clock : Nat) : Bool :=
  match secret, token with
  | some s, Token.signed signer _ exp => !falsy (some s) && decide (signer = s) && decide (clock < exp)
  | _, _ => false

/-- `generateToken()`, with `process.env.SECRET_KEY` as the argument `secret`. -/
def generateToken (secret : Option String) (clock : Nat) : Except String Token :=
  match secret with
  | none => Except.error "SECRET_KEY not set"
  | some s => if s = "" then Except.error "SECRET_KEY not set" else Except.ok (jwtSign s clock)

def allowedReferrers : List String :=
  ["linkvertise.com", "work.ink", "loot-link.com", "direct-link.net"]

def denialPage : Response := ⟨403, Body.file "accessdenied.html"⟩

def suspicious : Response := ⟨403, Body.error "Suspicious activity detected"⟩

/-- The middleware `validateRequest`: the response it sends (`none` when it
calls `next()`), and the ban list it leaves. -/
def validateRequest (req : Request) (blockedIPs : List String) :
    Option Response × List String :=
  let referer := req.referer.getD ""
  let userAgent := req.userAgent.getD ""
  if !(allowedReferrers.any fun valid => includes referer valid) then
    (some denialPage, blockedIPs)
  else if falsy (some userAgent) || decide (userAgent.length < 10) then
    (some suspicious, setAdd blockedIPs req.ip)
  else
    (none, blockedIPs)

/-! ## Route handlers -/

/-- What a route handler did: its response, whether it called the key service,
and the token it issued. -/
structure Handled where
  response : Response
  brokerCalled : Bool
  issued : Option Token
  deriving DecidableEq, Repr

/-- The handler of `POST /check-key`. -/
def checkKey (secret : Option String) (env : Env) (key : Option String) : Handled :=
  if falsy key then ⟨⟨400, Body.error "Key is required"⟩, false, none⟩
  else
    match generateKey env.upstream with
    | Except.error _ => ⟨⟨500, Body.error "Internal Server Error"⟩, true, none⟩
    | Except.ok validKey =>
      if key = some validKey then
        match generateToken secret env.clock with
        | Except.error _ => ⟨⟨500, Body.error "Internal Server Error"⟩, true, none⟩
        | Except.ok token => ⟨⟨200, Body.verdict true (some token)⟩, true, some token⟩
      else ⟨⟨200, Body.verdict false none⟩, true, none⟩

/-- The handler of `POST /validate-token`. -/
def validateToken (secret : Option String) (env : Env) (token : Option Token) : Handled :=
  match token with
  | none => ⟨⟨400, Body.error "Token is required"⟩, false, none⟩
  | some t =>
    if tokenFalsy (some t) then ⟨⟨400, Body.error "Token is required"⟩, false, none⟩
    else ⟨⟨200, Body.verdict (jwtVerify t secret env.clock) none⟩, false, none⟩

/-- The handler of `GET /get-key`, run after `validateRequest` called `next()`. -/
def getKey (env : Env) : Handled :=
  match generateKey env.upstream with
  | Except.error _ => ⟨⟨500, Body.error "Error generating key"⟩, true, none⟩
  | Except.ok key =>
    match env.keysite with
    | none => ⟨⟨500, Body.error "Error generating key"⟩, true, none⟩
    | some html => ⟨⟨200, Body.html (generateHtmlResponse html key env.timestamp)⟩, true, none⟩

def notFound : Response := ⟨404, Body.file "404.html"⟩

/-! ## The middleware chain -/

structure ServerState (σ : Type) where
  rate : σ
  blockedIPs : List String

/-- The outcome of one request: the response, the state left behind, the stages
that ran, whether the key service was called, and the token issued. -/
structure Outcome (σ : Type) where
  response : Response
  state : ServerState σ
  ran : List Stage
  brokerCalled : Bool
  issued : Option Token

/-- The chain behind `express.json()`, for a request whose body it has parsed:
`app.use(limiter)`, then the `blockedIPs` middleware, then the route. -/
def handle {σ : Type} (L : RateLimit σ) (secret : Option String) (env : Env) (req : Request)
    (st : ServerState σ) : Outcome σ :=
  let admitted := L.admission env.now req.ip st.rate
  if !admitted.1 then
    ⟨rateLimited, ⟨admitted.2, st.blockedIPs⟩, [Stage.limiter], false, none⟩
  else if req.ip ∈ st.blockedIPs then
    ⟨accessDenied, ⟨admitted.2, st.blockedIPs⟩, [Stage.limiter, Stage.blockedIPs], false, none⟩
  else
    match req.route with
    | Route.checkKey =>
      let h := checkKey secret env req.key
      ⟨h.response, ⟨admitted.2, st.blockedIPs⟩,
        [Stage.limiter, Stage.blockedIPs, Stage.handler], h.brokerCalled, h.issued⟩
    | Route.validateToken =>
      let h := validateToken secret env req.token
      ⟨h.response, ⟨admitted.2, st.blockedIPs⟩,
        [Stage.limiter, Stage.blockedIPs, Stage.handler], h.brokerCalled, h.issued⟩
    | Route.getKey =>
      match validateRequest req st.blockedIPs with
      | (some denial, blocked) =>
        ⟨denial, ⟨admitted.2, blocked⟩,
          [Stage.limiter, Stage.blockedIPs, Stage.validateRequest], false, none⟩
      | (none, blocked) =>
        let h := getKey env
        ⟨h.response, ⟨admitted.2, blocked⟩,
          [Stage.limiter, Stage.blockedIPs, Stage.validateRequest, Stage.handler],
          h.brokerCalled, h.issued⟩
    | Route.unmatched =>
      ⟨notFound, ⟨admitted.2, st.blockedIPs⟩,
        [Stage.limiter, Stage.blockedIPs, Stage.handler], false, none⟩

/-- The state after a sequence of requests, each with its environment. -/
def run {σ : Type} (L : RateLimit σ) (secret : Option String) :
    List (Env × Request) → ServerState σ → ServerState σ
  | [], st => st
  | (env, req) :: rest, st => run L secret rest (handle L secret env req st).state

/-- The state of a freshly started process: no rate windows, nobody banned. -/
def initialState : ServerState RateStore := ⟨fun _ => none, []⟩

/-! ## The whole application -/

/-- An incoming request as `express.json()`, the first middleware, leaves it:
either the body could not be parsed, and the middleware passes an error on, or
the request has a parsed body. -/
inductive Incoming
  | malformed (ip : String) (route : Route) (referer userAgent : Option String)
  | parsed (req : Request)
  deriving DecidableEq, Repr

/-- The address `req.ip` of an incoming request. -/
def Incoming.ip : Incoming → String
  | Incoming.malformed ip _ _ _ => ip
  | Incoming.parsed req => req.ip

/-- The response of the error-handling middleware `(err, req, res, next)`. -/
def internalError : Response := ⟨500, Body.error "Internal Server Error"⟩

/-- One request through the application.  `app.use(express.json())` comes
first: when it cannot parse the body it passes the error on, Express skips
every middleware and route up to the error-handling middleware, which answers
500, and neither the limiter nor the `blockedIPs` check runs.  Otherwise the
request goes through `handle`. -/
def app {σ : Type} (L : RateLimit σ) (secret : Option String) (env : Env) (inc : Incoming)
    (st : ServerState σ) : Outcome σ :=
  match inc with
  | Incoming.malformed _ _ _ _ => ⟨internalError, st, [Stage.json], false, none⟩
  | Incoming.parsed req =>
    let out := handle L secret env req st
    ⟨out.response, out.state, Stage.json :: out.ran, out.brokerCalled, out.issued⟩

/-- The state after a sequence of incoming requests, each with its environment. -/
def serve {σ : Type} (L : RateLimit σ) (secret : Option String) :
    List (Env × Incoming) → ServerState σ → ServerState σ
  | [], st => st
  | (env, inc) :: rest, st => serve L secret rest (app L secret env inc st).state

/-! # Theorems -/

/-! ## Substring search -/

theorem findFirst_isSome_iff (pat : List Char) (s : List Char) :
    (findFirst pat s).isSome = true ↔ pat <:+: s := by
  induction s with
  | nil =>
    cases pat <;> simp [findFirst, List.isPrefixOf]
  | cons c r ih =>
    by_cases h : pat.isPrefixOf (c :: r) = true
    · simp only [findFirst, h, if_true, Option.isSome_some, true_iff]
      exact (List.isPrefixOf_iff_prefix.mp h).isInfix
    · have hn : ¬ pat <+: c :: r := fun hp => h (List.isPrefixOf_iff_prefix.mpr hp)
      rw [List.infix_cons_iff]
      simp only [findFirst, h]
      cases hf : findFirst pat r with
      | none =>
        rw [hf] at ih
        simp at ih
        simp [hn, ih]
      | some p =>
        obtain ⟨b, a⟩ := p
        rw [hf] at ih
        simp at ih
        simp [ih]

theorem includes_iff (s pat : String) : includes s pat = true ↔ pat.data <:+: s.data := by
  unfold includes
  exact findFirst_isSome_iff _ _

theorem any_includes_iff (referer : String) :
    (allowedReferrers.any fun valid => includes referer valid) = true ↔
      ∃ a ∈ allowedReferrers, a.data <:+: referer.data := by
  simp only [List.any_eq_true, includes_iff]

theorem mem_setAdd (set : List String) (ip x : String) :
    x ∈ setAdd set ip ↔ x ∈ set ∨ x = ip := by
  unfold setAdd
  by_cases h : ip ∈ set
  · simp only [h, if_true]
    constructor
    · exact Or.inl
    · rintro (hx | hx)
      · exact hx
      · exact hx ▸ h
  · simp [h]

/-! ## The admission filter -/

theorem validateRequest_denyReferer (req : Request) (blockedIPs : List String)
    (h : ¬ ∃ a ∈ allowedReferrers, a.data <:+: (req.referer.getD "").data) :
    validateRequest req blockedIPs = (some denialPage, blockedIPs) := by
  rw [← any_includes_iff] at h
  simp [validateRequest, h]

theorem validateRequest_denyBot (req : Request) (blockedIPs : List String)
    (h : ∃ a ∈ allowedReferrers, a.data <:+: (req.referer.getD "").data)
    (hlen : (req.userAgent.getD "").length < 10) :
    validateRequest req blockedIPs = (some suspicious, setAdd blockedIPs req.ip) := by
  rw [← any_includes_iff] at h
  have hshort : (falsy (some (req.userAgent.getD "")) ||
      decide ((req.userAgent.getD "").length < 10)) = true := by
    simp [hlen]
  simp only [validateRequest, h, hshort, Bool.not_true, if_true]
  simp

theorem validateRequest_allow (req : Request) (blockedIPs : List String)
    (h : ∃ a ∈ allowedReferrers, a.data <:+: (req.referer.getD "").data)
    (hlen : 10 ≤ (req.userAgent.getD "").length) :
    validateRequest req blockedIPs = (none, blockedIPs) := by
  rw [← any_includes_iff] at h
  have hne : req.userAgent.getD "" ≠ "" := by
    intro he
    rw [he] at hlen
    simp [String.length] at hlen
  have hlong : (falsy (some (req.userAgent.getD "")) ||
      decide ((req.userAgent.getD "").length < 10)) = false := by
    simp [falsy, hne, hlen]
  simp [validateRequest, h, hlong]

/-- C2: `validateRequest` denies with the 403 denial page, leaving the ban list
alone, when the referer (absent counting as empty) contains none of the allowed
substrings, whatever the user-agent; otherwise it denies with 403
`Suspicious activity detected` and adds exactly the requester's address to the
ban list when the user-agent is absent, empty or shorter than 10 characters;
otherwise it calls the next stage and leaves the ban list unchanged. -/
theorem validateRequest_outcome (req : Request) (blockedIPs : List String) :
    ((¬ ∃ a ∈ allowedReferrers, a.data <:+: (req.referer.getD "").data) →
      validateRequest req blockedIPs = (some denialPage, blockedIPs)) ∧
    ((∃ a ∈ allowedReferrers, a.data <:+: (req.referer.getD "").data) →
      (req.userAgent = none ∨ req.userAgent = some "" ∨
        ∃ ua, req.userAgent = some ua ∧ ua.length < 10) →
      (validateRequest req blockedIPs).1 = some suspicious ∧
      ∀ ip, ip ∈ (validateRequest req blockedIPs).2 ↔ ip ∈ blockedIPs ∨ ip = req.ip) ∧
    ((∃ a ∈ allowedReferrers, a.data <:+: (req.referer.getD "").data) →
      (∃ ua, req.userAgent = some ua ∧ 10 ≤ ua.length) →
      validateRequest req blockedIPs = (none, blockedIPs)) := by
  refine ⟨validateRequest_denyReferer req blockedIPs, ?_, ?_⟩
  · intro h hua
    have hlen : (req.userAgent.getD "").length < 10 := by
      rcases hua with hua | hua | ⟨ua, hua, hlen⟩
      · simp [hua, String.length]
      · simp [hua, String.length]
      · simpa [hua] using hlen
    rw [validateRequest_denyBot req blockedIPs h hlen]
    exact ⟨rfl, fun ip => mem_setAdd blockedIPs req.ip ip⟩
  · rintro h ⟨ua, hua, hlen⟩
    exact validateRequest_allow req blockedIPs h (by simpa [hua] using hlen)

/-- The examples of C2: the referer `https://work.ink/x` with a long user-agent
is let through, the empty referer gets the denial page, and a valid referer
with user-agent `a` gets the bot denial and the address is banned. -/
theorem validateRequest_outcome_witness :
    validateRequest ⟨"10.0.0.7", Route.getKey, some "https://work.ink/x",
        some "Mozilla/5.0 (X11)", none, none⟩ ["10.0.0.1"] = (none, ["10.0.0.1"]) ∧
    validateRequest ⟨"10.0.0.7", Route.getKey, some "", some "Mozilla/5.0 (X11)", none, none⟩
        ["10.0.0.1"] = (some denialPage, ["10.0.0.1"]) ∧
    (validateRequest ⟨"10.0.0.7", Route.getKey, some "https://work.ink/x", some "a", none, none⟩
        ["10.0.0.1"]).1 = some suspicious ∧
    "10.0.0.7" ∈ (validateRequest ⟨"10.0.0.7", Route.getKey, some "https://work.ink/x",
        some "a", none, none⟩ ["10.0.0.1"]).2 := by
  have hallowed : ∃ a ∈ allowedReferrers, a.data <:+: ("https://work.ink/x" : String).data :=
    ⟨"work.ink", by decide, by decide⟩
  have hdenied : ¬ ∃ a ∈ allowedReferrers, a.data <:+: ("" : String).data := by decide
  refine ⟨?_, ?_, ?_, ?_⟩
  · exact (validateRequest_outcome ⟨"10.0.0.7", Route.getKey, some "https://work.ink/x",
      some "Mozilla/5.0 (X11)", none, none⟩ ["10.0.0.1"]).2.2 hallowed
      ⟨"Mozilla/5.0 (X11)", rfl, by decide⟩
  · exact (validateRequest_outcome ⟨"10.0.0.7", Route.getKey, some "",
      some "Mozilla/5.0 (X11)", none, none⟩ ["10.0.0.1"]).1 hdenied
  · exact ((validateRequest_outcome ⟨"10.0.0.7", Route.getKey, some "https://work.ink/x",
      some "a", none, none⟩ ["10.0.0.1"]).2.1 hallowed
      (Or.inr (Or.inr ⟨"a", rfl, by decide⟩))).1
  · exact (((validateRequest_outcome ⟨"10.0.0.7", Route.getKey, some "https://work.ink/x",
      some "a", none, none⟩ ["10.0.0.1"]).2.1 hallowed
      (Or.inr (Or.inr ⟨"a", rfl, by decide⟩))).2 "10.0.0.7").2 (Or.inr rfl)

/-! ## The route handlers -/

/-- C4: with a signing secret configured and the broker returning the key `v`,
`POST /check-key` answers 400 `Key is required` without calling the broker when
the submitted key is absent or empty; otherwise it answers 200 with
`valid: true` and a freshly issued token exactly when the submitted key equals
`v`, and 200 with `valid: false` and no token when it differs. -/
theorem checkKey_response (s : String) (hs : s ≠ "") (env : Env) (v : String)
    (hv : generateKey env.upstream = Except.ok v) (key : Option String) :
    ((key = none ∨ key = some "") →
      checkKey (some s) env key = ⟨⟨400, Body.error "Key is required"⟩, false, none⟩) ∧
    (∀ k, key = some k → k ≠ "" →
      ((∃ token, (checkKey (some s) env key).response = ⟨200, Body.verdict true (some token)⟩)
        ↔ k = v) ∧
      (k = v → checkKey (some s) env key =
        ⟨⟨200, Body.verdict true (some (jwtSign s env.clock))⟩, true,
          some (jwtSign s env.clock)⟩) ∧
      (k ≠ v → checkKey (some s) env key = ⟨⟨200, Body.verdict false none⟩, true, none⟩)) := by
  refine ⟨?_, ?_⟩
  · rintro (h | h) <;> simp [h, checkKey, falsy]
  · intro k hk hne
    subst hk
    have hmatch : k = v → checkKey (some s) env (some k) =
        ⟨⟨200, Body.verdict true (some (jwtSign s env.clock))⟩, true,
          some (jwtSign s env.clock)⟩ := by
      intro hkv
      subst hkv
      simp [checkKey, falsy, hne, hv, generateToken, hs]
    have hdiff : k ≠ v → checkKey (some s) env (some k) =
        ⟨⟨200, Body.verdict false none⟩, true, none⟩ := by
      intro hkv
      simp [checkKey, falsy, hne, hv, hkv]
    refine ⟨⟨?_, ?_⟩, hmatch, hdiff⟩
    · rintro ⟨token, htok⟩
      by_contra hkv
      rw [hdiff hkv] at htok
      simp at htok
    · intro hkv
      exact ⟨jwtSign s env.clock, by rw [hmatch hkv]⟩

/-- A matching key gets a token and a differing key does not, at a concrete
broker reply. -/
theorem checkKey_response_witness :
    checkKey (some "s3cret") ⟨0, 50, "T", Upstream.replied (some "K-1"), none⟩ (some "K-1") =
      ⟨⟨200, Body.verdict true (some (jwtSign "s3cret" 50))⟩, true,
        some (jwtSign "s3cret" 50)⟩ ∧
    checkKey (some "s3cret") ⟨0, 50, "T", Upstream.replied (some "K-1"), none⟩ (some "K-2") =
      ⟨⟨200, Body.verdict false none⟩, true, none⟩ ∧
    checkKey (some "s3cret") ⟨0, 50, "T", Upstream.replied (some "K-1"), none⟩ none =
      ⟨⟨400, Body.error "Key is required"⟩, false, none⟩ :=
  ⟨((checkKey_response "s3cret" (by decide) ⟨0, 50, "T", Upstream.replied (some "K-1"), none⟩
      "K-1" (by simp [generateKey]) (some "K-1")).2 "K-1" rfl (by decide)).2.1 rfl,
   ((checkKey_response "s3cret" (by decide) ⟨0, 50, "T", Upstream.replied (some "K-1"), none⟩
      "K-1" (by simp [generateKey]) (some "K-2")).2 "K-2" rfl (by decide)).2.2 (by decide),
   (checkKey_response "s3cret" (by decide) ⟨0, 50, "T", Upstream.replied (some "K-1"), none⟩
      "K-1" (by simp [generateKey]) none).1 (Or.inl rfl)⟩

/-- C6: `POST /validate-token` answers 400 `Token is required` exactly when the
token field is absent or empty; in every other case it answers 200 with
`valid` set to the result of verifying the token with the process-wide secret.
A malformed, an expired and a badly signed token each get 200 with
`valid: false`; the status is never anything but 400 or 200. -/
theorem validateToken_response (secret : Option String) (env : Env) :
    (∀ token, (validateToken secret env token).response.status = 400 ↔
      (token = none ∨ token = some (Token.raw ""))) ∧
    (∀ token, (token = none ∨ token = some (Token.raw "")) →
      (validateToken secret env token).response = ⟨400, Body.error "Token is required"⟩) ∧
    (∀ t, t ≠ Token.raw "" → (validateToken secret env (some t)).response =
      ⟨200, Body.verdict (jwtVerify t secret env.clock) none⟩) ∧
    (∀ token, (validateToken secret env token).response.status = 400 ∨
      (validateToken secret env token).response.status = 200) ∧
    (∀ text, text ≠ "" → (validateToken secret env (some (Token.raw text))).response =
      ⟨200, Body.verdict false none⟩) ∧
    (∀ signer iat exp, exp ≤ env.clock →
      (validateToken secret env (some (Token.signed signer iat exp))).response =
        ⟨200, Body.verdict false none⟩) ∧
    (∀ signer iat exp, secret ≠ some signer →
      (validateToken secret env (some (Token.signed signer iat exp))).response =
        ⟨200, Body.verdict false none⟩) := by
  have hreq : ∀ token, (token = none ∨ token = some (Token.raw "")) →
      (validateToken secret env token).response = ⟨400, Body.error "Token is required"⟩ := by
    rintro token (h | h) <;> simp [h, validateToken, tokenFalsy]
  have hok : ∀ t, t ≠ Token.raw "" → (validateToken secret env (some t)).response =
      ⟨200, Body.verdict (jwtVerify t secret env.clock) none⟩ := by
    intro t ht
    cases t with
    | raw text =>
      have : text ≠ "" := fun h => ht (by rw [h])
      simp [validateToken, tokenFalsy, this]
    | signed signer iat exp => simp [validateToken, tokenFalsy]
  refine ⟨?_, hreq, hok, ?_, ?_, ?_, ?_⟩
  · intro token
    constructor
    · intro h
      cases token with
      | none => exact Or.inl rfl
      | some t =>
        by_cases ht : t = Token.raw ""
        · exact Or.inr (by rw [ht])
        · rw [hok t ht] at h
          simp at h
    · intro h
      rw [hreq token h]
  · intro token
    cases token with
    | none => exact Or.inl (by rw [hreq none (Or.inl rfl)])
    | some t =>
      by_cases ht : t = Token.raw ""
      · exact Or.inl (by rw [hreq (some t) (Or.inr (by rw [ht]))])
      · exact Or.inr (by rw [hok t ht])
  · intro text htext
    rw [hok _ (by simpa using htext)]
    cases secret <;> simp [jwtVerify]
  · intro signer iat exp hexp
    rw [hok _ (by simp)]
    cases secret with
    | none => simp [jwtVerify]
    | some s => simp [jwtVerify, Nat.not_lt.mpr hexp]
  · intro signer iat exp hsec
    rw [hok _ (by simp)]
    cases secret with
    | none => simp [jwtVerify]
    | some s =>
      have : signer ≠ s := fun h => hsec (by rw [h])
      simp [jwtVerify, this]

/-- An absent token gets 400, and a malformed, an expired and a badly signed
token get 200 with `valid: false`, at concrete inputs. -/
theorem validateToken_response_witness :
    (validateToken (some "s3cret") ⟨0, 100, "T", Upstream.replied none, none⟩ none).response =
      ⟨400, Body.error "Token is required"⟩ ∧
    (validateToken (some "s3cret") ⟨0, 100, "T", Upstream.replied none, none⟩
      (some (Token.raw "abc"))).response = ⟨200, Body.verdict false none⟩ ∧
    (validateToken (some "s3cret") ⟨0, 100, "T", Upstream.replied none, none⟩
      (some (Token.signed "s3cret" 10 40))).response = ⟨200, Body.verdict false none⟩ ∧
    (validateToken (some "s3cret") ⟨0, 100, "T", Upstream.replied none, none⟩
      (some (Token.signed "other" 90 120))).response = ⟨200, Body.verdict false none⟩ :=
  ⟨(validateToken_response (some "s3cret") ⟨0, 100, "T", Upstream.replied none, none⟩).2.1
      none (Or.inl rfl),
   (validateToken_response (some "s3cret") ⟨0, 100, "T", Upstream.replied none, none⟩).2.2.2.2.1
      "abc" (by decide),
   (validateToken_response (some "s3cret") ⟨0, 100, "T", Upstream.replied none, none⟩).2.2.2.2.2.1
      "s3cret" 10 40 (by decide),
   (validateToken_response (some "s3cret") ⟨0, 100, "T", Upstream.replied none, none⟩).2.2.2.2.2.2
      "other" 90 120 (by decide)⟩

/-- C7: for every non-empty signing secret and every issuance time `t` (in
seconds of the token clock), `generateToken` returns a token that
`POST /validate-token` reports valid under the same secret at every time from
`t` up to but not including `t + 30`, and invalid at every time from `t + 30`
on.  Without a signing secret `generateToken` fails. -/
theorem generateToken_lifetime (s : String) (hs : s ≠ "") (t : Nat) :
    generateToken (some s) t = Except.ok (jwtSign s t) ∧
    (∀ env : Env, t ≤ env.clock → env.clock < t + 30 →
      (validateToken (some s) env (some (jwtSign s t))).response =
        ⟨200, Body.verdict true none⟩) ∧
    (∀ env : Env, t + 30 ≤ env.clock →
      (validateToken (some s) env (some (jwtSign s t))).response =
        ⟨200, Body.verdict false none⟩) ∧
    generateToken none t = Except.error "SECRET_KEY not set" ∧
    generateToken (some "") t = Except.error "SECRET_KEY not set" := by
  refine ⟨by simp [generateToken, hs], ?_, ?_, rfl, rfl⟩
  · intro env _ hlt
    simp [validateToken, tokenFalsy, jwtSign, jwtVerify, falsy, hs, hlt]
  · intro env hge
    simp [validateToken, tokenFalsy, jwtSign, jwtVerify, falsy, hs, Nat.not_lt.mpr hge]

/-- A token issued at second 100 under the secret `s3cret` is valid at seconds
100 and 129 and invalid at second 130. -/
theorem generateToken_lifetime_witness :
    generateToken (some "s3cret") 100 = Except.ok (jwtSign "s3cret" 100) ∧
    (validateToken (some "s3cret") ⟨0, 100, "T", Upstream.replied none, none⟩
      (some (jwtSign "s3cret" 100))).response = ⟨200, Body.verdict true none⟩ ∧
    (validateToken (some "s3cret") ⟨0, 129, "T", Upstream.replied none, none⟩
      (some (jwtSign "s3cret" 100))).response = ⟨200, Body.verdict true none⟩ ∧
    (validateToken (some "s3cret") ⟨0, 130, "T", Upstream.replied none, none⟩
      (some (jwtSign "s3cret" 100))).response = ⟨200, Body.verdict false none⟩ :=
  ⟨(generateToken_lifetime "s3cret" (by decide) 100).1,
   (generateToken_lifetime "s3cret" (by decide) 100).2.1
     ⟨0, 100, "T", Upstream.replied none, none⟩ (by decide) (by decide),
   (generateToken_lifetime "s3cret" (by decide) 100).2.1
     ⟨0, 129, "T", Upstream.replied none, none⟩ (by decide) (by decide),
   (generateToken_lifetime "s3cret" (by decide) 100).2.2.1
     ⟨0, 130, "T", Upstream.replied none, none⟩ (by decide)⟩

/-! ## The middleware chain -/

theorem handle_not_admitted {σ : Type} (L : RateLimit σ) (secret : Option String) (env : Env)
    (req : Request) (st : ServerState σ) (h : (L.admission env.now req.ip st.rate).1 = false) :
    handle L secret env req st =
      ⟨rateLimited, ⟨(L.admission env.now req.ip st.rate).2, st.blockedIPs⟩, [Stage.limiter],
        false, none⟩ := by
  simp [handle, h]

theorem handle_blocked {σ : Type} (L : RateLimit σ) (secret : Option String) (env : Env)
    (req : Request) (st : ServerState σ) (h : (L.admission env.now req.ip st.rate).1 = true)
    (hb : req.ip ∈ st.blockedIPs) :
    handle L secret env req st =
      ⟨accessDenied, ⟨(L.admission env.now req.ip st.rate).2, st.blockedIPs⟩,
        [Stage.limiter, Stage.blockedIPs], false, none⟩ := by
  simp [handle, h, hb]

theorem handle_checkKey {σ : Type} (L : RateLimit σ) (secret : Option String) (env : Env)
    (req : Request) (st : ServerState σ) (h : (L.admission env.now req.ip st.rate).1 = true)
    (hb : req.ip ∉ st.blockedIPs) (hroute : req.route = Route.checkKey) :
    handle L secret env req st =
      ⟨(checkKey secret env req.key).response,
        ⟨(L.admission env.now req.ip st.rate).2, st.blockedIPs⟩,
        [Stage.limiter, Stage.blockedIPs, Stage.handler],
        (checkKey secret env req.key).brokerCalled, (checkKey secret env req.key).issued⟩ := by
  simp [handle, h, hb, hroute]

theorem handle_getKey {σ : Type} (L : RateLimit σ) (secret : Option String) (env : Env)
    (req : Request) (st : ServerState σ) (h : (L.admission env.now req.ip st.rate).1 = true)
    (hb : req.ip ∉ st.blockedIPs) (hroute : req.route = Route.getKey) :
    handle L secret env req st =
      match validateRequest req st.blockedIPs with
      | (some denial, blocked) =>
        ⟨denial, ⟨(L.admission env.now req.ip st.rate).2, blocked⟩,
          [Stage.limiter, Stage.blockedIPs, Stage.validateRequest], false, none⟩
      | (none, blocked) =>
        ⟨(getKey env).response, ⟨(L.admission env.now req.ip st.rate).2, blocked⟩,
          [Stage.limiter, Stage.blockedIPs, Stage.validateRequest, Stage.handler],
          (getKey env).brokerCalled, (getKey env).issued⟩ := by
  simp [handle, h, hb, hroute]

theorem handle_validateToken {σ : Type} (L : RateLimit σ) (secret : Option String) (env : Env)
    (req : Request) (st : ServerState σ) (h : (L.admission env.now req.ip st.rate).1 = true)
    (hb : req.ip ∉ st.blockedIPs) (hroute : req.route = Route.validateToken) :
    handle L secret env req st =
      ⟨(validateToken secret env req.token).response,
        ⟨(L.admission env.now req.ip st.rate).2, st.blockedIPs⟩,
        [Stage.limiter, Stage.blockedIPs, Stage.handler],
        (validateToken secret env req.token).brokerCalled,
        (validateToken secret env req.token).issued⟩ := by
  simp [handle, h, hb, hroute]

theorem handle_unmatched {σ : Type} (L : RateLimit σ) (secret : Option String) (env : Env)
    (req : Request) (st : ServerState σ) (h : (L.admission env.now req.ip st.rate).1 = true)
    (hb : req.ip ∉ st.blockedIPs) (hroute : req.route = Route.unmatched) :
    handle L secret env req st =
      ⟨notFound, ⟨(L.admission env.now req.ip st.rate).2, st.blockedIPs⟩,
        [Stage.limiter, Stage.blockedIPs, Stage.handler], false, none⟩ := by
  simp [handle, h, hb, hroute]

theorem handle_rate {σ : Type} (L : RateLimit σ) (secret : Option String) (env : Env)
    (req : Request) (st : ServerState σ) :
    (handle L secret env req st).state.rate = (L.admission env.now req.ip st.rate).2 := by
  cases h : (L.admission env.now req.ip st.rate).1 with
  | false => rw [handle_not_admitted L secret env req st h]
  | true =>
    by_cases hb : req.ip ∈ st.blockedIPs
    · rw [handle_blocked L secret env req st h hb]
    · cases hroute : req.route with
      | checkKey => rw [handle_checkKey L secret env req st h hb hroute]
      | validateToken => rw [handle_validateToken L secret env req st h hb hroute]
      | getKey =>
        rw [handle_getKey L secret env req st h hb hroute]
        split <;> rfl
      | unmatched => rw [handle_unmatched L secret env req st h hb hroute]

theorem validateRequest_blocked (req : Request) (blockedIPs : List String) :
    (validateRequest req blockedIPs).2 = blockedIPs ∨
      (validateRequest req blockedIPs).2 = setAdd blockedIPs req.ip := by
  unfold validateRequest
  simp only
  split
  · exact Or.inl rfl
  · split
    · exact Or.inr rfl
    · exact Or.inl rfl

theorem handle_blockedIPs {σ : Type} (L : RateLimit σ) (secret : Option String) (env : Env)
    (req : Request) (st : ServerState σ) :
    (handle L secret env req st).state.blockedIPs = st.blockedIPs ∨
      (handle L secret env req st).state.blockedIPs = setAdd st.blockedIPs req.ip := by
  cases h : (L.admission env.now req.ip st.rate).1 with
  | false =>
    rw [handle_not_admitted L secret env req st h]
    exact Or.inl rfl
  | true =>
    by_cases hb : req.ip ∈ st.blockedIPs
    · rw [handle_blocked L secret env req st h hb]
      exact Or.inl rfl
    · cases hroute : req.route with
      | checkKey =>
        rw [handle_checkKey L secret env req st h hb hroute]
        exact Or.inl rfl
      | validateToken =>
        rw [handle_validateToken L secret env req st h hb hroute]
        exact Or.inl rfl
      | getKey =>
        rw [handle_getKey L secret env req st h hb hroute]
        have hv := validateRequest_blocked req st.blockedIPs
        split
        · rename_i heq
          rw [heq] at hv
          exact hv
        · rename_i heq
          rw [heq] at hv
          exact hv
      | unmatched =>
        rw [handle_unmatched L secret env req st h hb hroute]
        exact Or.inl rfl

theorem handle_blockedIPs_mono {σ : Type} (L : RateLimit σ) (secret : Option String) (env : Env)
    (req : Request) (st : ServerState σ) (x : String) (hx : x ∈ st.blockedIPs) :
    x ∈ (handle L secret env req st).state.blockedIPs := by
  rcases handle_blockedIPs L secret env req st with h | h
  · rw [h]
    exact hx
  · rw [h]
    exact (mem_setAdd _ _ _).mpr (Or.inl hx)

theorem handle_response_rateLimited {σ : Type} (L : RateLimit σ) (secret : Option String)
    (env : Env) (req : Request) (st : ServerState σ) :
    (handle L secret env req st).response = rateLimited ↔
      (L.admission env.now req.ip st.rate).1 = false := by
  constructor
  · intro hresp
    by_contra hne
    have hadm : (L.admission env.now req.ip st.rate).1 = true := by simpa using hne
    by_cases hb : req.ip ∈ st.blockedIPs
    · rw [handle_blocked L secret env req st hadm hb] at hresp
      simp [accessDenied, rateLimited] at hresp
    · cases hroute : req.route with
      | checkKey =>
        rw [handle_checkKey L secret env req st hadm hb hroute] at hresp
        simp only [checkKey, rateLimited] at hresp
        revert hresp
        split
        · simp
        · split
          · simp
          · split
            · split <;> simp
            · simp
      | validateToken =>
        rw [handle_validateToken L secret env req st hadm hb hroute] at hresp
        simp only [validateToken, rateLimited] at hresp
        revert hresp
        split
        · simp
        · split <;> simp
      | getKey =>
        rw [handle_getKey L secret env req st hadm hb hroute] at hresp
        revert hresp
        unfold validateRequest getKey
        simp only
        split
        · rename_i heq
          revert heq
          split
          · intro heq
            simp only [Prod.mk.injEq, Option.some.injEq] at heq
            rw [← heq.1]
            simp [denialPage, rateLimited]
          · split
            · intro heq
              simp only [Prod.mk.injEq, Option.some.injEq] at heq
              rw [← heq.1]
              simp [suspicious, rateLimited]
            · intro heq
              simp at heq
        · split
          · simp [rateLimited]
          · split <;> simp [rateLimited]
      | unmatched =>
        rw [handle_unmatched L secret env req st hadm hb hroute] at hresp
        simp [notFound, rateLimited] at hresp
  · intro h
    rw [handle_not_admitted L secret env req st h]

/-- C1: for a get-key request, the broker is called or a 200 response is sent
only if the rate limiter admitted the request, the address is not banned, the
referer contains an allowed substring and the user-agent has at least 10
characters.  The first check that fails sends its own denial, and no later
stage runs; the broker is not called.  When all four checks pass the handler
runs, calls the broker and sends its response. -/
theorem getKey_gate {σ : Type} (L : RateLimit σ) (secret : Option String) (env : Env)
    (req : Request) (st : ServerState σ) (hroute : req.route = Route.getKey) :
    (((handle L secret env req st).brokerCalled = true ∨
        (handle L secret env req st).response.status = 200) →
      (L.admission env.now req.ip st.rate).1 = true ∧ req.ip ∉ st.blockedIPs ∧
      (∃ a ∈ allowedReferrers, a.data <:+: (req.referer.getD "").data) ∧
      10 ≤ (req.userAgent.getD "").length) ∧
    ((L.admission env.now req.ip st.rate).1 = false →
      (handle L secret env req st).response = rateLimited ∧
      (handle L secret env req st).ran = [Stage.limiter] ∧
      (handle L secret env req st).brokerCalled = false) ∧
    ((L.admission env.now req.ip st.rate).1 = true → req.ip ∈ st.blockedIPs →
      (handle L secret env req st).response = accessDenied ∧
      (handle L secret env req st).ran = [Stage.limiter, Stage.blockedIPs] ∧
      (handle L secret env req st).brokerCalled = false) ∧
    ((L.admission env.now req.ip st.rate).1 = true → req.ip ∉ st.blockedIPs →
      (¬ ∃ a ∈ allowedReferrers, a.data <:+: (req.referer.getD "").data) →
      (handle L secret env req st).response = denialPage ∧
      (handle L secret env req st).ran =
        [Stage.limiter, Stage.blockedIPs, Stage.validateRequest] ∧
      (handle L secret env req st).brokerCalled = false) ∧
    ((L.admission env.now req.ip st.rate).1 = true → req.ip ∉ st.blockedIPs →
      (∃ a ∈ allowedReferrers, a.data <:+: (req.referer.getD "").data) →
      (req.userAgent.getD "").length < 10 →
      (handle L secret env req st).response = suspicious ∧
      (handle L secret env req st).ran =
        [Stage.limiter, Stage.blockedIPs, Stage.validateRequest] ∧
      (handle L secret env req st).brokerCalled = false) ∧
    ((L.admission env.now req.ip st.rate).1 = true → req.ip ∉ st.blockedIPs →
      (∃ a ∈ allowedReferrers, a.data <:+: (req.referer.getD "").data) →
      10 ≤ (req.userAgent.getD "").length →
      (handle L secret env req st).ran =
        [Stage.limiter, Stage.blockedIPs, Stage.validateRequest, Stage.handler] ∧
      (handle L secret env req st).brokerCalled = true ∧
      (handle L secret env req st).response = (getKey env).response) := by
  have h1 : (L.admission env.now req.ip st.rate).1 = false →
      (handle L secret env req st).response = rateLimited ∧
      (handle L secret env req st).ran = [Stage.limiter] ∧
      (handle L secret env req st).brokerCalled = false := by
    intro h
    rw [handle_not_admitted L secret env req st h]
    exact ⟨rfl, rfl, rfl⟩
  have h2 : (L.admission env.now req.ip st.rate).1 = true → req.ip ∈ st.blockedIPs →
      (handle L secret env req st).response = accessDenied ∧
      (handle L secret env req st).ran = [Stage.limiter, Stage.blockedIPs] ∧
      (handle L secret env req st).brokerCalled = false := by
    intro h hb
    rw [handle_blocked L secret env req st h hb]
    exact ⟨rfl, rfl, rfl⟩
  have h3 : (L.admission env.now req.ip st.rate).1 = true → req.ip ∉ st.blockedIPs →
      (¬ ∃ a ∈ allowedReferrers, a.data <:+: (req.referer.getD "").data) →
      (handle L secret env req st).response = denialPage ∧
      (handle L secret env req st).ran =
        [Stage.limiter, Stage.blockedIPs, Stage.validateRequest] ∧
      (handle L secret env req st).brokerCalled = false := by
    intro h hb hr
    rw [handle_getKey L secret env req st h hb hroute,
      validateRequest_denyReferer req st.blockedIPs hr]
    exact ⟨rfl, rfl, rfl⟩
  have h4 : (L.admission env.now req.ip st.rate).1 = true → req.ip ∉ st.blockedIPs →
      (∃ a ∈ allowedReferrers, a.data <:+: (req.referer.getD "").data) →
      (req.userAgent.getD "").length < 10 →
      (handle L secret env req st).response = suspicious ∧
      (handle L secret env req st).ran =
        [Stage.limiter, Stage.blockedIPs, Stage.validateRequest] ∧
      (handle L secret env req st).brokerCalled = false := by
    intro h hb hr hu
    rw [handle_getKey L secret env req st h hb hroute,
      validateRequest_denyBot req st.blockedIPs hr hu]
    exact ⟨rfl, rfl, rfl⟩
  have h5 : (L.admission env.now req.ip st.rate).1 = true → req.ip ∉ st.blockedIPs →
      (∃ a ∈ allowedReferrers, a.data <:+: (req.referer.getD "").data) →
      10 ≤ (req.userAgent.getD "").length →
      (handle L secret env req st).ran =
        [Stage.limiter, Stage.blockedIPs, Stage.validateRequest, Stage.handler] ∧
      (handle L secret env req st).brokerCalled = true ∧
      (handle L secret env req st).response = (getKey env).response := by
    intro h hb hr hu
    rw [handle_getKey L secret env req st h hb hroute,
      validateRequest_allow req st.blockedIPs hr hu]
    refine ⟨rfl, ?_, rfl⟩
    simp only [getKey]
    split
    · rfl
    · split <;> rfl
  refine ⟨?_, h1, h2, h3, h4, h5⟩
  intro hout
  cases h : (L.admission env.now req.ip st.rate).1 with
  | false =>
    obtain ⟨hr, _, hc⟩ := h1 h
    rw [hr, hc] at hout
    simp [rateLimited] at hout
  | true =>
    by_cases hb : req.ip ∈ st.blockedIPs
    · obtain ⟨hr, _, hc⟩ := h2 h hb
      rw [hr, hc] at hout
      simp [accessDenied] at hout
    · by_cases href : ∃ a ∈ allowedReferrers, a.data <:+: (req.referer.getD "").data
      · by_cases hu : 10 ≤ (req.userAgent.getD "").length
        · exact ⟨rfl, hb, href, hu⟩
        · obtain ⟨hr, _, hc⟩ := h4 h hb href (Nat.lt_of_not_le hu)
          rw [hr, hc] at hout
          simp [suspicious] at hout
      · obtain ⟨hr, _, hc⟩ := h3 h hb href
        rw [hr, hc] at hout
        simp [denialPage] at hout

/-- The gate of C1 at concrete requests to a fresh process: a request with an
allowed referer and a long user-agent reaches the broker, and one without a
referer gets the denial page and does not. -/
theorem getKey_gate_witness :
    (handle limiter (some "s3cret") ⟨1000, 1, "T", Upstream.replied (some "K-1"), some "x"⟩
      ⟨"10.0.0.7", Route.getKey, some "https://work.ink/x", some "Mozilla/5.0 (X11)", none, none⟩
      initialState).brokerCalled = true ∧
    (handle limiter (some "s3cret") ⟨1000, 1, "T", Upstream.replied (some "K-1"), some "x"⟩
      ⟨"10.0.0.7", Route.getKey, none, some "Mozilla/5.0 (X11)", none, none⟩
      initialState).brokerCalled = false :=
  ⟨((getKey_gate limiter (some "s3cret") ⟨1000, 1, "T", Upstream.replied (some "K-1"), some "x"⟩
      ⟨"10.0.0.7", Route.getKey, some "https://work.ink/x", some "Mozilla/5.0 (X11)", none, none⟩
      initialState rfl).2.2.2.2.2 rfl (by decide) ⟨"work.ink", by decide, by decide⟩
      (by decide)).2.1,
   ((getKey_gate limiter (some "s3cret") ⟨1000, 1, "T", Upstream.replied (some "K-1"), some "x"⟩
      ⟨"10.0.0.7", Route.getKey, none, some "Mozilla/5.0 (X11)", none, none⟩
      initialState rfl).2.2.2.1 rfl (by decide) (by decide)).2.2⟩

theorem app_blockedIPs_mono {σ : Type} (L : RateLimit σ) (secret : Option String) (env : Env)
    (inc : Incoming) (st : ServerState σ) (x : String) (hx : x ∈ st.blockedIPs) :
    x ∈ (app L secret env inc st).state.blockedIPs := by
  cases inc with
  | malformed ip route referer userAgent => exact hx
  | parsed req => exact handle_blockedIPs_mono L secret env req st x hx

theorem serve_blockedIPs_mono {σ : Type} (L : RateLimit σ) (secret : Option String)
    (events : List (Env × Incoming)) :
    ∀ (st : ServerState σ) (x : String), x ∈ st.blockedIPs →
      x ∈ (serve L secret events st).blockedIPs := by
  induction events with
  | nil =>
    intro st x hx
    exact hx
  | cons e rest ih =>
    intro st x hx
    obtain ⟨env, inc⟩ := e
    exact ih _ x (app_blockedIPs_mono L secret env inc st x hx)

/-- C3, as the code has it: once an address is in the ban list it stays there
through every later sequence of requests (no request removes an address), and
every later request from it, on any route and with any headers and body, is
answered with 500 `Internal Server Error` when `express.json()` cannot parse
its body (then neither the limiter nor the ban check runs and the state is
left as it was), and otherwise with 403 `Access Denied` when the rate limiter
admits it and with the rate limiter's rejection when it does not; in every
case neither `validateRequest` nor a route handler runs, the broker is not
called, no token is issued and the ban list is left as it was. -/
theorem banned_stays_denied {σ : Type} (L : RateLimit σ) (secret : Option String)
    (st : ServerState σ) (ip : String) (hban : ip ∈ st.blockedIPs)
    (events : List (Env × Incoming)) (env : Env) (inc : Incoming) (hip : inc.ip = ip) :
    ip ∈ (serve L secret events st).blockedIPs ∧
    (∀ x ∈ st.blockedIPs, x ∈ (serve L secret events st).blockedIPs) ∧
    (∀ route referer userAgent, inc = Incoming.malformed ip route referer userAgent →
      (app L secret env inc (serve L secret events st)).response = internalError ∧
      (app L secret env inc (serve L secret events st)).ran = [Stage.json] ∧
      (app L secret env inc (serve L secret events st)).state.rate =
        (serve L secret events st).rate) ∧
    (∀ req, inc = Incoming.parsed req →
      (L.admission env.now ip (serve L secret events st).rate).1 = true →
      (app L secret env inc (serve L secret events st)).response = accessDenied ∧
      (app L secret env inc (serve L secret events st)).ran =
        [Stage.json, Stage.limiter, Stage.blockedIPs]) ∧
    (∀ req, inc = Incoming.parsed req →
      (L.admission env.now ip (serve L secret events st).rate).1 = false →
      (app L secret env inc (serve L secret events st)).response = rateLimited ∧
      (app L secret env inc (serve L secret events st)).ran = [Stage.json, Stage.limiter]) ∧
    Stage.validateRequest ∉ (app L secret env inc (serve L secret events st)).ran ∧
    Stage.handler ∉ (app L secret env inc (serve L secret events st)).ran ∧
    (app L secret env inc (serve L secret events st)).brokerCalled = false ∧
    (app L secret env inc (serve L secret events st)).issued = none ∧
    (app L secret env inc (serve L secret events st)).state.blockedIPs =
      (serve L secret events st).blockedIPs := by
  have hstill : ip ∈ (serve L secret events st).blockedIPs :=
    serve_blockedIPs_mono L secret events st ip hban
  refine ⟨hstill, fun x hx => serve_blockedIPs_mono L secret events st x hx, ?_, ?_, ?_, ?_⟩
  · intro route referer userAgent hinc
    rw [hinc]
    exact ⟨rfl, rfl, rfl⟩
  · intro req hinc h
    have hreq : req.ip = ip := by rw [hinc] at hip; exact hip
    rw [← hreq] at h hstill
    rw [hinc]
    simp only [app]
    rw [handle_blocked L secret env req _ h hstill]
    exact ⟨rfl, rfl⟩
  · intro req hinc h
    have hreq : req.ip = ip := by rw [hinc] at hip; exact hip
    rw [← hreq] at h
    rw [hinc]
    simp only [app]
    rw [handle_not_admitted L secret env req _ h]
    exact ⟨rfl, rfl⟩
  · cases inc with
    | malformed a route referer userAgent => simp [app]
    | parsed req =>
      have hreq : req.ip = ip := hip
      have hb : req.ip ∈ (serve L secret events st).blockedIPs := hreq ▸ hstill
      simp only [app]
      cases h : (L.admission env.now req.ip (serve L secret events st).rate).1 with
      | false =>
        rw [handle_not_admitted L secret env req _ h]
        simp
      | true =>
        rw [handle_blocked L secret env req _ h hb]
        simp

/-- A bot request to a fresh process bans its address; after a further request
the next request from that address, to another route, is answered with 403
`Access Denied`, and one with an unparsable body with 500. -/
theorem banned_stays_denied_witness :
    "6.6.6.6" ∈ (app limiter (some "s3cret")
      ⟨1000, 1, "T", Upstream.replied (some "K-1"), some "x"⟩
      (Incoming.parsed
        ⟨"6.6.6.6", Route.getKey, some "https://work.ink/x", some "a", none, none⟩)
      initialState).state.blockedIPs ∧
    (app limiter (some "s3cret") ⟨2000, 2, "T", Upstream.replied (some "K-1"), some "x"⟩
      (Incoming.parsed ⟨"6.6.6.6", Route.checkKey, none, none, some "K-1", none⟩)
      (serve limiter (some "s3cret")
        [(⟨1500, 1, "T", Upstream.replied (some "K-1"), some "x"⟩,
          Incoming.parsed ⟨"10.0.0.7", Route.unmatched, none, none, none, none⟩)]
        (app limiter (some "s3cret") ⟨1000, 1, "T", Upstream.replied (some "K-1"), some "x"⟩
          (Incoming.parsed
            ⟨"6.6.6.6", Route.getKey, some "https://work.ink/x", some "a", none, none⟩)
          initialState).state)).response = accessDenied ∧
    (app limiter (some "s3cret") ⟨2000, 2, "T", Upstream.replied (some "K-1"), some "x"⟩
      (Incoming.malformed "6.6.6.6" Route.checkKey none none)
      (serve limiter (some "s3cret")
        [(⟨1500, 1, "T", Upstream.replied (some "K-1"), some "x"⟩,
          Incoming.parsed ⟨"10.0.0.7", Route.unmatched, none, none, none, none⟩)]
        (app limiter (some "s3cret") ⟨1000, 1, "T", Upstream.replied (some "K-1"), some "x"⟩
          (Incoming.parsed
            ⟨"6.6.6.6", Route.getKey, some "https://work.ink/x", some "a", none, none⟩)
          initialState).state)).response = internalError :=
  ⟨by decide,
   ((banned_stays_denied limiter (some "s3cret")
      (app limiter (some "s3cret") ⟨1000, 1, "T", Upstream.replied (some "K-1"), some "x"⟩
        (Incoming.parsed
          ⟨"6.6.6.6", Route.getKey, some "https://work.ink/x", some "a", none, none⟩)
        initialState).state "6.6.6.6" (by decide)
      [(⟨1500, 1, "T", Upstream.replied (some "K-1"), some "x"⟩,
        Incoming.parsed ⟨"10.0.0.7", Route.unmatched, none, none, none, none⟩)]
      ⟨2000, 2, "T", Upstream.replied (some "K-1"), some "x"⟩
      (Incoming.parsed ⟨"6.6.6.6", Route.checkKey, none, none, some "K-1", none⟩)
      rfl).2.2.2.1 ⟨"6.6.6.6", Route.checkKey, none, none, some "K-1", none⟩ rfl
      (by decide)).1,
   ((banned_stays_denied limiter (some "s3cret")
      (app limiter (some "s3cret") ⟨1000, 1, "T", Upstream.replied (some "K-1"), some "x"⟩
        (Incoming.parsed
          ⟨"6.6.6.6", Route.getKey, some "https://work.ink/x", some "a", none, none⟩)
        initialState).state "6.6.6.6" (by decide)
      [(⟨1500, 1, "T", Upstream.replied (some "K-1"), some "x"⟩,
        Incoming.parsed ⟨"10.0.0.7", Route.unmatched, none, none, none, none⟩)]
      ⟨2000, 2, "T", Upstream.replied (some "K-1"), some "x"⟩
      (Incoming.malformed "6.6.6.6" Route.checkKey none none)
      rfl).2.2.1 Route.checkKey none none rfl).1⟩

/-- C8: for a check-key request with a non-empty key, when the upstream call
errors or its reply has no key, the handler answers 500 with the fixed body
`Internal Server Error` whatever the cause and its message; no token is issued
and the ban list is unchanged. -/
theorem checkKey_upstream_failure {σ : Type} (L : RateLimit σ) (secret : Option String)
    (env : Env) (req : Request) (st : ServerState σ) (hroute : req.route = Route.checkKey)
    (hkey : ∃ k, req.key = some k ∧ k ≠ "")
    (hfail : (∃ message, env.upstream = Upstream.failed message) ∨
      env.upstream = Upstream.replied none ∨ env.upstream = Upstream.replied (some "")) :
    checkKey secret env req.key = ⟨⟨500, Body.error "Internal Server Error"⟩, true, none⟩ ∧
    ((L.admission env.now req.ip st.rate).1 = true → req.ip ∉ st.blockedIPs →
      (handle L secret env req st).response = ⟨500, Body.error "Internal Server Error"⟩) ∧
    (handle L secret env req st).issued = none ∧
    (handle L secret env req st).state.blockedIPs = st.blockedIPs := by
  obtain ⟨k, hk, hne⟩ := hkey
  have herr : ∃ message, generateKey env.upstream = Except.error message := by
    rcases hfail with ⟨message, h⟩ | h | h
    · exact ⟨message, by rw [h]; rfl⟩
    · exact ⟨"Key not found", by rw [h]; rfl⟩
    · exact ⟨"Key not found", by rw [h]; rfl⟩
  obtain ⟨message, herr⟩ := herr
  have hck : checkKey secret env req.key =
      ⟨⟨500, Body.error "Internal Server Error"⟩, true, none⟩ := by
    simp [checkKey, hk, falsy, hne, herr]
  refine ⟨hck, ?_, ?_, ?_⟩
  · intro h hb
    rw [handle_checkKey L secret env req st h hb hroute, hck]
  · cases h : (L.admission env.now req.ip st.rate).1 with
    | false => rw [handle_not_admitted L secret env req st h]
    | true =>
      by_cases hb : req.ip ∈ st.blockedIPs
      · rw [handle_blocked L secret env req st h hb]
      · rw [handle_checkKey L secret env req st h hb hroute, hck]
  · cases h : (L.admission env.now req.ip st.rate).1 with
    | false => rw [handle_not_admitted L secret env req st h]
    | true =>
      by_cases hb : req.ip ∈ st.blockedIPs
      · rw [handle_blocked L secret env req st h hb]
      · rw [handle_checkKey L secret env req st h hb hroute]

/-- An upstream timeout and a reply without a key both give the same 500. -/
theorem checkKey_upstream_failure_witness :
    (handle limiter (some "s3cret") ⟨1000, 1, "T", Upstream.failed "timeout of 5000ms exceeded",
      none⟩ ⟨"10.0.0.7", Route.checkKey, none, none, some "K-1", none⟩ initialState).response =
      ⟨500, Body.error "Internal Server Error"⟩ ∧
    (handle limiter (some "s3cret") ⟨1000, 1, "T", Upstream.replied none, none⟩
      ⟨"10.0.0.7", Route.checkKey, none, none, some "K-1", none⟩ initialState).response =
      ⟨500, Body.error "Internal Server Error"⟩ :=
  ⟨(checkKey_upstream_failure limiter (some "s3cret")
      ⟨1000, 1, "T", Upstream.failed "timeout of 5000ms exceeded", none⟩
      ⟨"10.0.0.7", Route.checkKey, none, none, some "K-1", none⟩ initialState rfl
      ⟨"K-1", rfl, by decide⟩ (Or.inl ⟨"timeout of 5000ms exceeded", rfl⟩)).2.1 rfl (by decide),
   (checkKey_upstream_failure limiter (some "s3cret")
      ⟨1000, 1, "T", Upstream.replied none, none⟩
      ⟨"10.0.0.7", Route.checkKey, none, none, some "K-1", none⟩ initialState rfl
      ⟨"K-1", rfl, by decide⟩ (Or.inr (Or.inl rfl))).2.1 rfl (by decide)⟩

/-! ## The rate limiter -/

theorem limiter_admission_fresh (now : Nat) (ip : String) (store : RateStore)
    (h : store ip = none ∨ ∃ w, store ip = some w ∧ windowMs ≤ now - w.windowStart) :
    limiter.admission now ip store = (true, store.set ip ⟨1, now⟩) := by
  rcases h with h | ⟨w, h, hw⟩
  · simp [limiter, rateLimit, h]
  · simp [limiter, rateLimit, h, hw]

theorem limiter_admission_inWindow (now : Nat) (ip : String) (store : RateStore) (w : RateWindow)
    (h : store ip = some w) (hw : now - w.windowStart < windowMs) :
    limiter.admission now ip store =
      (decide (w.count + 1 ≤ max), store.set ip ⟨w.count + 1, w.windowStart⟩) := by
  simp [limiter, rateLimit, h, Nat.not_le.mpr hw]

theorem limiter_admission_other (now : Nat) (ip other : String) (store : RateStore)
    (h : other ≠ ip) : (limiter.admission now ip store).2 other = store other := by
  simp only [limiter, rateLimit]
  split
  · simp [RateStore.set, h]
  · split <;> simp [RateStore.set, h]

theorem run_limiter_window (secret : Option String) (ip : String) (t0 : Nat)
    (events : List (Env × Request)) :
    ∀ (st : ServerState RateStore) (c : Nat), st.rate ip = some ⟨c, t0⟩ →
      (∀ e ∈ events, e.2.ip = ip → e.1.now - t0 < windowMs) →
      (run limiter secret events st).rate ip =
        some ⟨c + events.countP (fun e => decide (e.2.ip = ip)), t0⟩ := by
  induction events with
  | nil =>
    intro st c hst _
    simpa [run] using hst
  | cons e rest ih =>
    intro st c hst hwin
    obtain ⟨env, req⟩ := e
    have hrest : ∀ e ∈ rest, e.2.ip = ip → e.1.now - t0 < windowMs :=
      fun e he => hwin e (List.mem_cons_of_mem _ he)
    by_cases hip : req.ip = ip
    · have hnow : env.now - t0 < windowMs := hwin (env, req) (List.mem_cons_self _ _) hip
      have hstep : (handle limiter secret env req st).state.rate ip = some ⟨c + 1, t0⟩ := by
        rw [handle_rate, hip, limiter_admission_inWindow env.now ip st.rate ⟨c, t0⟩ hst hnow]
        simp [RateStore.set]
      have := ih _ (c + 1) hstep hrest
      simp only [run, List.countP_cons, hip, decide_True, if_true]
      rw [this]
      simp only [Nat.add_assoc, Nat.add_comm 1]
    · have hstep : (handle limiter secret env req st).state.rate ip = some ⟨c, t0⟩ := by
        rw [handle_rate, limiter_admission_other env.now req.ip ip st.rate (fun h => hip h.symm)]
        exact hst
      have := ih _ c hstep hrest
      simp only [run, List.countP_cons, hip, decide_False]
      rw [this]
      simp

/-- C5: with the threshold 100 and the window of 5 minutes, a request from an
address with no window, or whose window has elapsed, is admitted whatever the
earlier count was, and opens a window.  After a request that opened a window at
`t0` and any further requests (from any address, those of the same address
falling in the window), with `N` requests from the address in the window so
far, the next request from it in the window is rejected if and only if
`N ≥ 100`, and the rejection is 429 with the fixed body; applied to every
initial part of the sequence, this makes the first 100 requests of a window
the admitted ones. -/
theorem limiter_threshold (secret : Option String) (st : ServerState RateStore)
    (first env : Env) (opening req : Request) (events : List (Env × Request))
    (hsame : req.ip = opening.ip)
    (hfresh : st.rate opening.ip = none ∨
      ∃ w, st.rate opening.ip = some w ∧ windowMs ≤ first.now - w.windowStart)
    (hwin : ∀ e ∈ events, e.2.ip = opening.ip → e.1.now - first.now < windowMs)
    (hnow : env.now - first.now < windowMs) :
    (limiter.admission first.now opening.ip st.rate).1 = true ∧
    (handle limiter secret first opening st).state.rate opening.ip = some ⟨1, first.now⟩ ∧
    ((limiter.admission env.now req.ip
        (run limiter secret ((first, opening) :: events) st).rate).1 = false ↔
      100 ≤ 1 + events.countP (fun e => decide (e.2.ip = opening.ip))) ∧
    ((handle limiter secret env req
        (run limiter secret ((first, opening) :: events) st)).response = rateLimited ↔
      100 ≤ 1 + events.countP (fun e => decide (e.2.ip = opening.ip))) ∧
    (∀ (store : RateStore) (later : Env) (w : RateWindow), store req.ip = some w →
      windowMs ≤ later.now - w.windowStart →
      (limiter.admission later.now req.ip store).1 = true) := by
  have hopen : (handle limiter secret first opening st).state.rate opening.ip =
      some ⟨1, first.now⟩ := by
    rw [handle_rate, limiter_admission_fresh first.now opening.ip st.rate hfresh]
    simp [RateStore.set]
  have hrun : (run limiter secret ((first, opening) :: events) st).rate opening.ip =
      some ⟨1 + events.countP (fun e => decide (e.2.ip = opening.ip)), first.now⟩ :=
    run_limiter_window secret opening.ip first.now events _ 1 hopen hwin
  have hadmit : (limiter.admission env.now req.ip
        (run limiter secret ((first, opening) :: events) st).rate).1 = false ↔
      100 ≤ 1 + events.countP (fun e => decide (e.2.ip = opening.ip)) := by
    rw [hsame, limiter_admission_inWindow env.now opening.ip _ _ hrun hnow]
    simp only [max, decide_eq_false_iff_not]
    omega
  refine ⟨by rw [limiter_admission_fresh first.now opening.ip st.rate hfresh], hopen, hadmit,
    ?_, ?_⟩
  · rw [handle_response_rateLimited, hadmit]
  · intro store later w hw hlate
    rw [limiter_admission_fresh later.now req.ip store (Or.inr ⟨w, hw, hlate⟩)]

/-- The second request of a window is not rejected and the 101st is, at a
concrete address starting from a fresh process. -/
theorem limiter_threshold_witness :
    (handle limiter none ⟨2000, 2, "T", Upstream.replied none, none⟩
      ⟨"10.0.0.7", Route.unmatched, none, none, none, none⟩
      (run limiter none
        ((⟨1000, 1, "T", Upstream.replied none, none⟩,
            ⟨"10.0.0.7", Route.unmatched, none, none, none, none⟩) ::
          List.replicate 99 (⟨1500, 1, "T", Upstream.replied none, none⟩,
            ⟨"10.0.0.7", Route.unmatched, none, none, none, none⟩))
        initialState)).response = rateLimited ∧
    (handle limiter none ⟨2000, 2, "T", Upstream.replied none, none⟩
      ⟨"10.0.0.7", Route.unmatched, none, none, none, none⟩
      (run limiter none
        ((⟨1000, 1, "T", Upstream.replied none, none⟩,
            ⟨"10.0.0.7", Route.unmatched, none, none, none, none⟩) :: [])
        initialState)).response ≠ rateLimited :=
  ⟨(limiter_threshold none initialState ⟨1000, 1, "T", Upstream.replied none, none⟩
      ⟨2000, 2, "T", Upstream.replied none, none⟩
      ⟨"10.0.0.7", Route.unmatched, none, none, none, none⟩
      ⟨"10.0.0.7", Route.unmatched, none, none, none, none⟩
      (List.replicate 99 (⟨1500, 1, "T", Upstream.replied none, none⟩,
        ⟨"10.0.0.7", Route.unmatched, none, none, none, none⟩))
      rfl (Or.inl rfl)
      (fun e he _ => by rw [List.eq_of_mem_replicate he]; decide)
      (by decide)).2.2.2.1.mpr (by simp [List.countP_replicate]),
   mt (limiter_threshold none initialState ⟨1000, 1, "T", Upstream.replied none, none⟩
      ⟨2000, 2, "T", Upstream.replied none, none⟩
      ⟨"10.0.0.7", Route.unmatched, none, none, none, none⟩
      ⟨"10.0.0.7", Route.unmatched, none, none, none, none⟩ []
      rfl (Or.inl rfl) (fun e he _ => absurd he (List.not_mem_nil e))
      (by decide)).2.2.2.1.mp (by decide)⟩

/-- C9, as the code has it: a check-key request whose key differs from the
broker's key leaves the ban list as it was and issues no token, and the store
of the rate limiter after the request is the one the limiter's own admission
step left: the handler changes nothing in it, other addresses keep their
windows, and the requester's window either restarts at count 1 or has its
count raised by one, as for every other request. -/
theorem checkKey_mismatch_effects (secret : Option String) (env : Env) (req : Request)
    (st : ServerState RateStore) (v : String) (hroute : req.route = Route.checkKey)
    (hv : generateKey env.upstream = Except.ok v) (hneq : req.key ≠ some v) :
    (handle limiter secret env req st).state.blockedIPs = st.blockedIPs ∧
    (handle limiter secret env req st).issued = none ∧
    (handle limiter secret env req st).state.rate = (limiter.admission env.now req.ip st.rate).2 ∧
    (∀ other, other ≠ req.ip →
      (handle limiter secret env req st).state.rate other = st.rate other) ∧
    ((handle limiter secret env req st).state.rate req.ip = some ⟨1, env.now⟩ ∨
      ∃ w, st.rate req.ip = some w ∧ env.now - w.windowStart < windowMs ∧
        (handle limiter secret env req st).state.rate req.ip =
          some ⟨w.count + 1, w.windowStart⟩) := by
  have hissued : (checkKey secret env req.key).issued = none := by
    unfold checkKey
    split
    · rfl
    · rw [hv]
      simp [hneq]
  refine ⟨?_, ?_, handle_rate limiter secret env req st, ?_, ?_⟩
  · cases h : (limiter.admission env.now req.ip st.rate).1 with
    | false => rw [handle_not_admitted limiter secret env req st h]
    | true =>
      by_cases hb : req.ip ∈ st.blockedIPs
      · rw [handle_blocked limiter secret env req st h hb]
      · rw [handle_checkKey limiter secret env req st h hb hroute]
  · cases h : (limiter.admission env.now req.ip st.rate).1 with
    | false => rw [handle_not_admitted limiter secret env req st h]
    | true =>
      by_cases hb : req.ip ∈ st.blockedIPs
      · rw [handle_blocked limiter secret env req st h hb]
      · rw [handle_checkKey limiter secret env req st h hb hroute]
        exact hissued
  · intro other hother
    rw [handle_rate]
    exact limiter_admission_other env.now req.ip other st.rate hother
  · rw [handle_rate]
    cases hw : st.rate req.ip with
    | none =>
      left
      rw [limiter_admission_fresh env.now req.ip st.rate (Or.inl hw)]
      simp [RateStore.set]
    | some w =>
      by_cases hlate : windowMs ≤ env.now - w.windowStart
      · left
        rw [limiter_admission_fresh env.now req.ip st.rate (Or.inr ⟨w, hw, hlate⟩)]
        simp [RateStore.set]
      · right
        refine ⟨w, rfl, Nat.lt_of_not_le hlate, ?_⟩
        rw [limiter_admission_inWindow env.now req.ip st.rate w hw (Nat.lt_of_not_le hlate)]
        simp [RateStore.set]

/-- A wrong key sent to a fresh process leaves the ban list empty. -/
theorem checkKey_mismatch_effects_witness :
    (handle limiter (some "s3cret") ⟨1000, 1, "T", Upstream.replied (some "K-1"), none⟩
      ⟨"10.0.0.7", Route.checkKey, none, none, some "K-2", none⟩ initialState).state.blockedIPs
      = [] :=
  (checkKey_mismatch_effects (some "s3cret") ⟨1000, 1, "T", Upstream.replied (some "K-1"), none⟩
    ⟨"10.0.0.7", Route.checkKey, none, none, some "K-2", none⟩ initialState "K-1" rfl
    (by simp [generateKey]) (by decide)).1

/-- C9 fails as stated: a check-key request with a wrong key to a fresh process
is answered `valid: false`, and the requester, who had no rate window before,
has a window with count 1 after it. -/
theorem checkKey_mismatch_counted :
    (handle limiter (some "s3cret") ⟨1000, 1, "T", Upstream.replied (some "K-1"), none⟩
      ⟨"10.0.0.7", Route.checkKey, none, none, some "K-2", none⟩ initialState).response =
      ⟨200, Body.verdict false none⟩ ∧
    initialState.rate "10.0.0.7" = none ∧
    (handle limiter (some "s3cret") ⟨1000, 1, "T", Upstream.replied (some "K-1"), none⟩
      ⟨"10.0.0.7", Route.checkKey, none, none, some "K-2", none⟩ initialState).state.rate
      "10.0.0.7" = some ⟨1, 1000⟩ ∧
    (handle limiter (some "s3cret") ⟨1000, 1, "T", Upstream.replied (some "K-1"), none⟩
      ⟨"10.0.0.7", Route.checkKey, none, none, some "K-2", none⟩ initialState).state.rate
      "10.0.0.7" ≠ initialState.rate "10.0.0.7" := by
  decide

set_option maxRecDepth 100000 in
/-- C3 fails as stated: a bot request to a fresh process bans its address; after
99 more requests from that address in the same window, the next request from
the banned address is answered with the rate limiter's 429, not with 403
`Access Denied`; and a request from the banned address whose body cannot be
parsed is answered with 500, not with 403. -/
theorem banned_request_rate_limited :
    "6.6.6.6" ∈ (serve limiter (some "s3cret")
      (List.replicate 100 (⟨1000, 1, "T", Upstream.replied (some "K-1"), some "x"⟩,
        Incoming.parsed
          ⟨"6.6.6.6", Route.getKey, some "https://work.ink/x", some "a", none, none⟩))
      initialState).blockedIPs ∧
    (app limiter (some "s3cret") ⟨2000, 2, "T", Upstream.replied (some "K-1"), some "x"⟩
      (Incoming.parsed
        ⟨"6.6.6.6", Route.getKey, some "https://work.ink/x", some "a", none, none⟩)
      (serve limiter (some "s3cret")
        (List.replicate 100 (⟨1000, 1, "T", Upstream.replied (some "K-1"), some "x"⟩,
          Incoming.parsed
            ⟨"6.6.6.6", Route.getKey, some "https://work.ink/x", some "a", none, none⟩))
        initialState)).response = rateLimited ∧
    (app limiter (some "s3cret") ⟨2000, 2, "T", Upstream.replied (some "K-1"), some "x"⟩
      (Incoming.parsed
        ⟨"6.6.6.6", Route.getKey, some "https://work.ink/x", some "a", none, none⟩)
      (serve limiter (some "s3cret")
        (List.replicate 100 (⟨1000, 1, "T", Upstream.replied (some "K-1"), some "x"⟩,
          Incoming.parsed
            ⟨"6.6.6.6", Route.getKey, some "https://work.ink/x", some "a", none, none⟩))
        initialState)).response ≠ accessDenied ∧
    "6.6.6.6" ∈ (serve limiter (some "s3cret")
      [(⟨1000, 1, "T", Upstream.replied (some "K-1"), some "x"⟩,
        Incoming.parsed
          ⟨"6.6.6.6", Route.getKey, some "https://work.ink/x", some "a", none, none⟩)]
      initialState).blockedIPs ∧
    (app limiter (some "s3cret") ⟨2000, 2, "T", Upstream.replied (some "K-1"), some "x"⟩
      (Incoming.malformed "6.6.6.6" Route.checkKey none none)
      (serve limiter (some "s3cret")
        [(⟨1000, 1, "T", Upstream.replied (some "K-1"), some "x"⟩,
          Incoming.parsed
            ⟨"6.6.6.6", Route.getKey, some "https://work.ink/x", some "a", none, none⟩)]
        initialState)).response = internalError ∧
    internalError ≠ accessDenied := by
  decide

/-! ## The presentation page -/

theorem getSubstitution_verbatim (matched before after : List Char) :
    ∀ rep : List Char, '$' ∉ rep → getSubstitution matched before after rep = rep := by
  intro rep
  induction rep with
  | nil => intro _; rfl
  | cons c tl ih =>
    intro h
    have hc : c ≠ '$' := fun hc => h (by simp [hc])
    have htl : '$' ∉ tl := fun hm => h (List.mem_cons_of_mem _ hm)
    cases tl with
    | nil => rfl
    | cons d r =>
      have := ih htl
      simp only [getSubstitution, hc, if_false]
      rw [this]

theorem findFirst_hit (pat rest : List Char) :
    findFirst pat (pat ++ rest) = some ([], rest) := by
  have hp : pat.isPrefixOf (pat ++ rest) = true :=
    List.isPrefixOf_iff_prefix.mpr (List.prefix_append pat rest)
  cases hs : pat ++ rest with
  | nil =>
    have h1 : pat = [] := (List.append_eq_nil.mp hs).1
    have h2 : rest = [] := (List.append_eq_nil.mp hs).2
    subst h1 h2
    simp [findFirst]
  | cons c r =>
    rw [hs] at hp
    simp only [findFirst, hp, if_true]
    rw [← hs, List.drop_left]

theorem findFirst_skip (p : List Char) (a : List Char) (ha : '$' ∉ a) (rest : List Char) :
    findFirst ('$' :: p) (a ++ rest) =
      (findFirst ('$' :: p) rest).map fun found => (a ++ found.1, found.2) := by
  induction a with
  | nil =>
    rw [List.nil_append]
    cases findFirst ('$' :: p) rest <;> simp
  | cons c tl ih =>
    have hc : ('$' == c) = false := by
      simp only [beq_eq_false_iff_ne, ne_eq]
      intro hc
      exact ha (hc ▸ List.mem_cons_self _ _)
    have htl : '$' ∉ tl := fun hm => ha (List.mem_cons_of_mem _ hm)
    have hstep : findFirst ('$' :: p) (c :: (tl ++ rest)) =
        match findFirst ('$' :: p) (tl ++ rest) with
        | some (before, after) => some (c :: before, after)
        | none => none := by
      simp [findFirst, List.isPrefixOf, hc]
    rw [List.cons_append, hstep, ih htl]
    cases findFirst ('$' :: p) rest <;> simp

theorem findFirst_key_skip_timestamp (rest : List Char) :
    findFirst keyPlaceholder.data (timestampPlaceholder.data ++ rest) =
      (findFirst keyPlaceholder.data rest).map
        fun found => (timestampPlaceholder.data ++ found.1, found.2) := by
  have hk : keyPlaceholder.data = ['$', Char.ofNat 123, 'k', 'e', 'y', Char.ofNat 125] := rfl
  have ht : timestampPlaceholder.data =
      ['$', Char.ofNat 123, 't', 'i', 'm', 'e', 's', 't', 'a', 'm', 'p', Char.ofNat 125] := rfl
  rw [hk, ht]
  cases h : findFirst ['$', Char.ofNat 123, 'k', 'e', 'y', Char.ofNat 125] rest with
  | none => simp [findFirst, List.isPrefixOf, h]
  | some found => simp [findFirst, List.isPrefixOf, h]

theorem replace_first (p a rep rest : List Char) (ha : '$' ∉ a) (hrep : '$' ∉ rep) :
    replace (a ++ ('$' :: p) ++ rest) ('$' :: p) rep = a ++ rep ++ rest := by
  unfold replace
  rw [List.append_assoc, findFirst_skip p a ha, findFirst_hit]
  simp [getSubstitution_verbatim _ _ _ rep hrep]

theorem replace_key_after_timestamp (pre mid post key : List Char) (hpre : '$' ∉ pre)
    (hmid : '$' ∉ mid) (hkey : '$' ∉ key) :
    replace (pre ++ timestampPlaceholder.data ++ mid ++ keyPlaceholder.data ++ post)
      keyPlaceholder.data key = pre ++ timestampPlaceholder.data ++ mid ++ key ++ post := by
  have hk : keyPlaceholder.data = '$' :: [Char.ofNat 123, 'k', 'e', 'y', Char.ofNat 125] := rfl
  have hfind : findFirst keyPlaceholder.data
      (pre ++ (timestampPlaceholder.data ++ (mid ++ (keyPlaceholder.data ++ post)))) =
      some (pre ++ (timestampPlaceholder.data ++ (mid ++ [])), post) := by
    rw [hk, findFirst_skip _ pre hpre, ← hk, findFirst_key_skip_timestamp, hk,
      findFirst_skip _ mid hmid, findFirst_hit]
    rfl
  unfold replace
  simp only [List.append_assoc]
  rw [hfind]
  simp [getSubstitution_verbatim _ _ _ key hkey]

theorem not_infix_of_not_mem (pat s : List Char) (hp : '$' ∈ pat) (hs : '$' ∉ s) :
    ¬ pat <:+: s :=
  fun h => hs (h.subset hp)

/-- C10, as the code has it: for a template in which each of the two
placeholders occurs exactly once (in either order) and the dollar sign occurs
nowhere else, and for a credential and a timestamp without a dollar sign,
`generateHtmlResponse` returns the template with the key placeholder replaced
by the credential verbatim and the timestamp placeholder replaced by the
timestamp verbatim; the page contains the credential and the timestamp as
substrings and contains neither placeholder. -/
theorem generateHtmlResponse_embeds (pre mid post key timestamp : String)
    (hpre : '$' ∉ pre.data) (hmid : '$' ∉ mid.data) (hpost : '$' ∉ post.data)
    (hkey : '$' ∉ key.data) (hts : '$' ∉ timestamp.data) :
    generateHtmlResponse (pre ++ keyPlaceholder ++ mid ++ timestampPlaceholder ++ post)
      key timestamp = pre ++ key ++ mid ++ timestamp ++ post ∧
    generateHtmlResponse (pre ++ timestampPlaceholder ++ mid ++ keyPlaceholder ++ post)
      key timestamp = pre ++ timestamp ++ mid ++ key ++ post ∧
    ∀ html, (html = pre ++ keyPlaceholder ++ mid ++ timestampPlaceholder ++ post ∨
        html = pre ++ timestampPlaceholder ++ mid ++ keyPlaceholder ++ post) →
      key.data <:+: (generateHtmlResponse html key timestamp).data ∧
      timestamp.data <:+: (generateHtmlResponse html key timestamp).data ∧
      ¬ keyPlaceholder.data <:+: (generateHtmlResponse html key timestamp).data ∧
      ¬ timestampPlaceholder.data <:+: (generateHtmlResponse html key timestamp).data := by
  have hk : keyPlaceholder.data = '$' :: [Char.ofNat 123, 'k', 'e', 'y', Char.ofNat 125] := rfl
  have ht : timestampPlaceholder.data =
      '$' :: [Char.ofNat 123, 't', 'i', 'm', 'e', 's', 't', 'a', 'm', 'p', Char.ofNat 125] := rfl
  have hfirst : generateHtmlResponse
      (pre ++ keyPlaceholder ++ mid ++ timestampPlaceholder ++ post) key timestamp =
      pre ++ key ++ mid ++ timestamp ++ post := by
    have h1 : replace
        (pre.data ++ keyPlaceholder.data ++ (mid.data ++ timestampPlaceholder.data ++ post.data))
        keyPlaceholder.data key.data =
        pre.data ++ key.data ++ (mid.data ++ timestampPlaceholder.data ++ post.data) := by
      rw [hk]
      exact replace_first _ _ _ _ hpre hkey
    have h2 : replace
        (pre.data ++ key.data ++ mid.data ++ timestampPlaceholder.data ++ post.data)
        timestampPlaceholder.data timestamp.data =
        pre.data ++ key.data ++ mid.data ++ timestamp.data ++ post.data := by
      rw [ht]
      refine replace_first _ _ _ _ ?_ hts
      simp [hpre, hkey, hmid]
    apply String.ext
    simp only [generateHtmlResponse, String.data_append]
    simp only [List.append_assoc] at h1 h2 ⊢
    rw [h1, h2]
  have hsecond : generateHtmlResponse
      (pre ++ timestampPlaceholder ++ mid ++ keyPlaceholder ++ post) key timestamp =
      pre ++ timestamp ++ mid ++ key ++ post := by
    have h1 := replace_key_after_timestamp pre.data mid.data post.data key.data hpre hmid hkey
    have h2 : replace
        (pre.data ++ timestampPlaceholder.data ++ (mid.data ++ key.data ++ post.data))
        timestampPlaceholder.data timestamp.data =
        pre.data ++ timestamp.data ++ (mid.data ++ key.data ++ post.data) := by
      rw [ht]
      exact replace_first _ _ _ _ hpre hts
    apply String.ext
    simp only [generateHtmlResponse, String.data_append]
    simp only [List.append_assoc] at h1 h2 ⊢
    rw [h1, h2]
  refine ⟨hfirst, hsecond, ?_⟩
  have hkm : '$' ∈ keyPlaceholder.data := by rw [hk]; exact List.mem_cons_self _ _
  have htm : '$' ∈ timestampPlaceholder.data := by rw [ht]; exact List.mem_cons_self _ _
  rintro html (h | h)
  · rw [h, hfirst]
    simp only [String.data_append]
    refine ⟨⟨pre.data, mid.data ++ timestamp.data ++ post.data, by simp⟩,
      ⟨pre.data ++ key.data ++ mid.data, post.data, by simp⟩, ?_, ?_⟩
    · exact not_infix_of_not_mem _ _ hkm (by simp [hpre, hkey, hmid, hts, hpost])
    · exact not_infix_of_not_mem _ _ htm (by simp [hpre, hkey, hmid, hts, hpost])
  · rw [h, hsecond]
    simp only [String.data_append]
    refine ⟨⟨pre.data ++ timestamp.data ++ mid.data, post.data, by simp⟩,
      ⟨pre.data, mid.data ++ key.data ++ post.data, by simp⟩, ?_, ?_⟩
    · exact not_infix_of_not_mem _ _ hkm (by simp [hpre, hkey, hmid, hts, hpost])
    · exact not_infix_of_not_mem _ _ htm (by simp [hpre, hkey, hmid, hts, hpost])

/-- A page with the credential `K-1` and a timestamp rendered from a small
template. -/
theorem generateHtmlResponse_embeds_witness :
    generateHtmlResponse ("<p>" ++ keyPlaceholder ++ "</p><i>" ++ timestampPlaceholder ++ "</i>")
      "K-1" "2024-01-01T00:00:00.000Z" =
      "<p>" ++ "K-1" ++ "</p><i>" ++ "2024-01-01T00:00:00.000Z" ++ "</i>" :=
  (generateHtmlResponse_embeds "<p>" "</p><i>" "</i>" "K-1" "2024-01-01T00:00:00.000Z"
    (by decide) (by decide) (by decide) (by decide) (by decide)).1

/-- C10 fails as stated: with the credential `K$&Z` the page shows the key
placeholder in place of `$&`, so it does not contain the credential and still
contains the placeholder; and a second occurrence of the key placeholder in the
template is left in the page. -/
theorem generateHtmlResponse_not_verbatim :
    keyPlaceholder.data <:+:
      ("<p>" ++ keyPlaceholder ++ "</p><i>" ++ timestampPlaceholder ++ "</i>").data ∧
    timestampPlaceholder.data <:+:
      ("<p>" ++ keyPlaceholder ++ "</p><i>" ++ timestampPlaceholder ++ "</i>").data ∧
    generateHtmlResponse ("<p>" ++ keyPlaceholder ++ "</p><i>" ++ timestampPlaceholder ++ "</i>")
      "K$&Z" "T" = "<p>K" ++ keyPlaceholder ++ "Z</p><i>T</i>" ∧
    ¬ ("K$&Z" : String).data <:+: (generateHtmlResponse
      ("<p>" ++ keyPlaceholder ++ "</p><i>" ++ timestampPlaceholder ++ "</i>") "K$&Z" "T").data ∧
    keyPlaceholder.data <:+: (generateHtmlResponse
      ("<p>" ++ keyPlaceholder ++ "</p><i>" ++ timestampPlaceholder ++ "</i>") "K$&Z" "T").data ∧
    generateHtmlResponse (keyPlaceholder ++ "|" ++ keyPlaceholder ++ "|" ++ timestampPlaceholder)
      "K-1" "T" = "K-1|" ++ keyPlaceholder ++ "|T" ∧
    keyPlaceholder.data <:+: (generateHtmlResponse
      (keyPlaceholder ++ "|" ++ keyPlaceholder ++ "|" ++ timestampPlaceholder) "K-1" "T").data := by
  decide

end Gateway
